import Mathlib

/-!
Shallow embedding of `mcp_server.py`: a JSON-RPC 2.0 dispatcher exposing
Podman container/image lifecycle operations as MCP tools.

Modelling conventions:
* JSON values decoded by `json.loads` are the inductive `Json`; Python dicts
  decoded from JSON are association lists with distinct keys.
* The Podman client (`self.client`) is an external collaborator; it is
  modelled as a record of functions (`PodmanClient`) whose calls either
  return a value or raise, i.e. return `Except String α` where the `String`
  is `str(e)` of the raised exception.
* Python exceptions raised by the dispatcher machinery itself (TypeError,
  KeyError, AttributeError) are the type `PyErr`; a `PodmanTools` operation
  never raises (its body is wrapped in `try/except Exception`), so it
  returns a plain `Json`.
* `bytes` values are modelled by `PyVal.bytes` carrying their UTF-8
  decoding (the source always decodes with `'utf-8'`).
* Serialization by `json.dumps` (default separators `", "` and `": "`) is
  the function `Json.dumps`.
* The dispatcher resolves methods with `getattr`, so besides the sixteen
  operations it can reach the attributes a plain Python object inherits;
  `PtAttr` enumerates them (CPython 3.11). Some inherited calls return
  values `json.dumps` rejects; dispatch therefore threads a serialization
  annotation (`Json × Option String`), and `application` raises — the
  model's `AppResult.crash` — exactly where the real `json.dumps` would.
-/

/-- A JSON value as produced by `json.loads` / consumed by `json.dumps`. -/
inductive Json where
  | null
  | bool (b : Bool)
  | num (n : Int)
  | str (s : String)
  | arr (elems : List Json)
  | obj (fields : List (String × Json))
deriving Repr

mutual

/-- Structural (Python `==`) equality on JSON values. -/
def Json.beq : Json → Json → Bool
  | .null, .null => true
  | .bool a, .bool b => a == b
  | .num a, .num b => a == b
  | .str a, .str b => a == b
  | .arr xs, .arr ys => json_list_beq xs ys
  | .obj fs, .obj gs => json_fields_beq fs gs
  | _, _ => false

def json_list_beq : List Json → List Json → Bool
  | [], [] => true
  | x :: xs, y :: ys => Json.beq x y && json_list_beq xs ys
  | _, _ => false

def json_fields_beq : List (String × Json) → List (String × Json) → Bool
  | [], [] => true
  | (k, v) :: fs, (l, w) :: gs => k == l && Json.beq v w && json_fields_beq fs gs
  | _, _ => false

end

mutual

theorem Json.beq_iff_eq : ∀ a b : Json, Json.beq a b = true ↔ a = b
  | .null, .null => by simp [Json.beq]
  | .bool _, .bool _ => by simp [Json.beq]
  | .num _, .num _ => by simp [Json.beq]
  | .str _, .str _ => by simp [Json.beq]
  | .arr xs, .arr ys => by
      simp only [Json.beq, json_list_beq_iff_eq xs ys, Json.arr.injEq]
  | .obj fs, .obj gs => by
      simp only [Json.beq, json_fields_beq_iff_eq fs gs, Json.obj.injEq]
  | .null, .bool _ | .null, .num _ | .null, .str _ | .null, .arr _ | .null, .obj _
  | .bool _, .null | .bool _, .num _ | .bool _, .str _ | .bool _, .arr _ | .bool _, .obj _
  | .num _, .null | .num _, .bool _ | .num _, .str _ | .num _, .arr _ | .num _, .obj _
  | .str _, .null | .str _, .bool _ | .str _, .num _ | .str _, .arr _ | .str _, .obj _
  | .arr _, .null | .arr _, .bool _ | .arr _, .num _ | .arr _, .str _ | .arr _, .obj _
  | .obj _, .null | .obj _, .bool _ | .obj _, .num _ | .obj _, .str _ | .obj _, .arr _ => by
      simp [Json.beq]

theorem json_list_beq_iff_eq : ∀ xs ys : List Json, json_list_beq xs ys = true ↔ xs = ys
  | [], [] => by simp [json_list_beq]
  | x :: xs, y :: ys => by
      simp [json_list_beq, Json.beq_iff_eq x y, json_list_beq_iff_eq xs ys]
  | [], _ :: _ => by simp [json_list_beq]
  | _ :: _, [] => by simp [json_list_beq]

theorem json_fields_beq_iff_eq :
    ∀ fs gs : List (String × Json), json_fields_beq fs gs = true ↔ fs = gs
  | [], [] => by simp [json_fields_beq]
  | (k, v) :: fs, (l, w) :: gs => by
      simp [json_fields_beq, Json.beq_iff_eq v w, json_fields_beq_iff_eq fs gs,
        Prod.ext_iff, and_assoc]
  | [], _ :: _ => by simp [json_fields_beq]
  | _ :: _, [] => by simp [json_fields_beq]

end

instance : DecidableEq Json := fun a b =>
  decidable_of_iff (Json.beq a b = true) (Json.beq_iff_eq a b)

def json_escape_char (c : Char) : String :=
  if c = '"' then "\\\""
  else if c = '\\' then "\\\\"
  else if c = '\n' then "\\n"
  else if c = '\t' then "\\t"
  else if c = '\r' then "\\r"
  else String.singleton c

def json_quote (s : String) : String :=
  "\"" ++ String.join (s.toList.map json_escape_char) ++ "\""

mutual

/-- Serialization as by `json.dumps` with its default separators. -/
def Json.dumps : Json → String
  | .null => "null"
  | .bool true => "true"
  | .bool false => "false"
  | .num n => toString n
  | .str s => json_quote s
  | .arr elems => "[" ++ String.intercalate ", " (dumps_list elems) ++ "]"
  | .obj fields => "\x7b" ++ String.intercalate ", " (dumps_fields fields) ++ "\x7d"

def dumps_list : List Json → List String
  | [] => []
  | x :: xs => Json.dumps x :: dumps_list xs

def dumps_fields : List (String × Json) → List String
  | [] => []
  | (k, v) :: fs => (json_quote k ++ ": " ++ Json.dumps v) :: dumps_fields fs

end

/-- Name of the Python type a JSON value decodes to (for error messages). -/
def Json.type_name : Json → String
  | .null => "NoneType"
  | .bool _ => "bool"
  | .num _ => "int"
  | .str _ => "str"
  | .arr _ => "list"
  | .obj _ => "dict"

/-- Python truthiness of a decoded JSON value. -/
def Json.truthy : Json → Bool
  | .null => false
  | .bool b => b
  | .num n => n != 0
  | .str s => !(s == "")
  | .arr elems => !elems.isEmpty
  | .obj fields => !fields.isEmpty

/-- Field lookup inside a JSON object (none on any other shape). -/
def Json.lookup : Json → String → Option Json
  | .obj fields, k => fields.lookup k
  | _, _ => none

/-- An exception raised by the dispatcher machinery (not by the collaborator). -/
inductive PyErr where
  | typeError (msg : String)
  | keyError (key : String)
  | attributeError (msg : String)
deriving DecidableEq, Repr

/-- Python `str(e)` of a machinery exception (`KeyError` stringifies to the
quoted key). -/
def PyErr.py_str : PyErr → String
  | .typeError m => m
  | .keyError k => "\x27" ++ k ++ "\x27"
  | .attributeError m => m

/-- Does the association list carry the key? -/
def has_key (fields : List (String × Json)) (k : String) : Bool :=
  fields.any (fun p => p.1 == k)

def chars_start_with : List Char → List Char → Bool
  | [], _ => true
  | _ :: _, [] => false
  | a :: as, b :: bs => a == b && chars_start_with as bs

/-- Is `needle` a contiguous run inside `hay`? (Python `needle in hay` on strings.) -/
def chars_contain_seq (hay needle : List Char) : Bool :=
  match hay with
  | [] => needle.isEmpty
  | _ :: tl => chars_start_with needle hay || chars_contain_seq tl needle

/-- Python `v in x` for a string `v`: key test on a dict, membership on a
list, substring test on a string; TypeError on non-iterables. -/
def json_contains (j : Json) (k : String) : Except PyErr Bool :=
  match j with
  | .obj fields => .ok (has_key fields k)
  | .arr elems => .ok (elems.any (fun x => Json.beq x (.str k)))
  | .str s => .ok (chars_contain_seq s.toList k.toList)
  | v => .error (.typeError ("argument of type \x27" ++ v.type_name ++ "\x27 is not iterable"))

/-- Python `x.get(k, d)`: only dicts have `.get`; AttributeError otherwise. -/
def dict_get (j : Json) (k : String) (d : Json) : Except PyErr Json :=
  match j with
  | .obj fields => .ok ((fields.lookup k).getD d)
  | v => .error (.attributeError ("\x27" ++ v.type_name ++ "\x27 object has no attribute \x27get\x27"))

/-- Python `x[k]` for a string key `k`. -/
def item_get (j : Json) (k : String) : Except PyErr Json :=
  match j with
  | .obj fields =>
      match fields.lookup k with
      | some v => .ok v
      | none => .error (.keyError k)
  | .str _ => .error (.typeError "string indices must be integers")
  | .arr _ => .error (.typeError "list indices must be integers or slices, not str")
  | v => .error (.typeError ("\x27" ++ v.type_name ++ "\x27 object is not subscriptable"))

/-- Model of a raw Python value handed back by the collaborator where the
source distinguishes `bytes` from other values: a `bytes` object (carrying
its UTF-8 decoding), a `str`, or an `int`. -/
inductive PyVal where
  | bytes (decoded : String)
  | pystr (s : String)
  | pyint (n : Int)
deriving DecidableEq, Repr

/-- The recurring source pattern
`x.decode('utf-8') if isinstance(x, bytes) else str(x)`. -/
def PyVal.decode_or_str : PyVal → String
  | .bytes s => s
  | .pystr s => s
  | .pyint n => toString n

/-- The JSON image of a Python value placed raw into a result dict (a `bytes`
exit code would in truth make `json.dumps` raise; only serializable values
are modelled). -/
def PyVal.as_json : PyVal → Json
  | .bytes s => .str s
  | .pystr s => .str s
  | .pyint n => .num n

/-- A container handle resolved by the collaborator. -/
structure Container where
  short_id : String
  name : String
  image : Json
  status : String
  attrs : Json
deriving DecidableEq, Repr

/-- An image handle resolved by the collaborator. -/
structure Image where
  short_id : String
  tags : Json
  attrs : List (String × Json)
deriving DecidableEq, Repr

/-- What `client.containers.run` hands back: either a container handle (has
`short_id`) or some other value whose `str()` is a container id. -/
inductive RunReturn where
  | handle (c : Container)
  | ident (container_id : String)
deriving DecidableEq, Repr

/-- What `container.exec_run` hands back: an object with `exit_code` and
`output` attributes, a tuple, or any other shape. -/
inductive ExecReturn where
  | with_attrs (exit_code : Json) (output : PyVal)
  | tup (elems : List PyVal)
  | other
deriving DecidableEq, Repr

/-- One element of what `client.images.pull` hands back: an object with a
`short_id` (and possibly a `tags`) attribute, or a bare value without
`short_id`. -/
inductive PullItem where
  | with_id (short_id : String) (tags : Option Json)
  | bare
deriving DecidableEq, Repr

/-- What `client.images.pull` hands back: a list of items or a single item. -/
inductive PullReturn where
  | many (items : List PullItem)
  | single (item : PullItem)
deriving DecidableEq, Repr

/-- The external collaborator (`podman.PodmanClient`), as the set of calls
the source issues against it. A call either returns or raises; a raise is
`Except.error (str(e))`. Parameters the source forwards verbatim from the
request keep type `Json`. -/
structure PodmanClient where
  containers_list : Json → Except String (List Container)
  containers_get : Json → Except String Container
  containers_run : Json → Json → Json → Except String RunReturn
  containers_create : Json → Json → Json → Except String Container
  container_start : Container → Except String Unit
  container_stop : Container → Except String Unit
  container_restart : Container → Except String Unit
  container_remove : Container → Json → Except String Unit
  container_pause : Container → Except String Unit
  container_unpause : Container → Except String Unit
  container_logs : Container → Json → Json → Json → Except String PyVal
  container_exec_run : Container → Json → Option Json → Except String ExecReturn
  images_list : Json → Except String (List Image)
  images_get : Json → Except String Image
  images_pull : Json → Json → Except String PullReturn
  images_remove : Json → Json → Except String Unit
  info : Except String Json

/-- The `try: ... except Exception as e: return {"error": str(e)}` wrapper
every `PodmanTools` operation uses. -/
def except_to_result (r : Except String Json) : Json :=
  match r with
  | .ok v => v
  | .error e => .obj [("error", .str e)]

namespace PodmanTools

def list_containers (cl : PodmanClient) (all : Json) : Json :=
  except_to_result (do
    let containers ← cl.containers_list all
    pure (Json.arr (containers.map (fun c => Json.obj
      [("id", .str c.short_id), ("name", .str c.name),
       ("image", c.image), ("status", .str c.status)]))))

def inspect_container (cl : PodmanClient) (container_id : Json) : Json :=
  except_to_result (do
    let container ← cl.containers_get container_id
    pure container.attrs)

def run_container (cl : PodmanClient) (image command detach : Json) : Json :=
  except_to_result (do
    let container ← cl.containers_run image command detach
    match container with
    | .handle c =>
        pure (Json.obj [("id", .str c.short_id), ("name", .str c.name),
          ("status", .str (if detach.truthy then "running" else "created")),
          ("image", image)])
    | .ident container_id => do
        let container_obj ← cl.containers_get (.str container_id)
        pure (Json.obj [("id", .str container_obj.short_id),
          ("name", .str container_obj.name),
          ("status", .str (if detach.truthy then "running" else "created")),
          ("image", image)]))

def create_container (cl : PodmanClient) (image command name : Json) : Json :=
  except_to_result (do
    let container ← cl.containers_create image command name
    pure (Json.obj [("id", .str container.short_id), ("name", .str container.name),
      ("status", .str "created"), ("image", image)]))

def start_container (cl : PodmanClient) (container_id : Json) : Json :=
  except_to_result (do
    let container ← cl.containers_get container_id
    cl.container_start container
    pure (Json.obj [("id", .str container.short_id), ("name", .str container.name),
      ("status", .str "started")]))

def stop_container (cl : PodmanClient) (container_id : Json) : Json :=
  except_to_result (do
    let container ← cl.containers_get container_id
    cl.container_stop container
    pure (Json.obj [("id", .str container.short_id), ("name", .str container.name),
      ("status", .str "stopped")]))

def restart_container (cl : PodmanClient) (container_id : Json) : Json :=
  except_to_result (do
    let container ← cl.containers_get container_id
    cl.container_restart container
    pure (Json.obj [("id", .str container.short_id), ("name", .str container.name),
      ("status", .str "restarted")]))

def remove_container (cl : PodmanClient) (container_id force : Json) : Json :=
  except_to_result (do
    let container ← cl.containers_get container_id
    let container_name := container.name
    let container_short_id := container.short_id
    cl.container_remove container force
    pure (Json.obj [("id", .str container_short_id), ("name", .str container_name),
      ("status", .str "removed")]))

def pause_container (cl : PodmanClient) (container_id : Json) : Json :=
  except_to_result (do
    let container ← cl.containers_get container_id
    cl.container_pause container
    pure (Json.obj [("id", .str container.short_id), ("name", .str container.name),
      ("status", .str "paused")]))

def unpause_container (cl : PodmanClient) (container_id : Json) : Json :=
  except_to_result (do
    let container ← cl.containers_get container_id
    cl.container_unpause container
    pure (Json.obj [("id", .str container.short_id), ("name", .str container.name),
      ("status", .str "unpaused")]))

def get_container_logs (cl : PodmanClient) (container_id tail since follow : Json) : Json :=
  except_to_result (do
    let container ← cl.containers_get container_id
    let logs ← cl.container_logs container tail since follow
    pure (Json.obj [("logs", .str logs.decode_or_str)]))

def exec_command (cl : PodmanClient) (container_id command workdir : Json) : Json :=
  except_to_result (do
    let container ← cl.containers_get container_id
    let result ←
      if workdir.truthy then cl.container_exec_run container command (some workdir)
      else cl.container_exec_run container command none
    match result with
    | .with_attrs exit_code output =>
        pure (Json.obj [("exit_code", exit_code),
          ("output", .str output.decode_or_str)])
    | .tup (a :: b :: _) =>
        pure (Json.obj [("exit_code", a.as_json),
          ("output", .str b.decode_or_str)])
    | .tup _ =>
        pure (Json.obj [("error", .str "Unexpected result format from exec_run")])
    | .other =>
        pure (Json.obj [("error", .str "Unexpected result format from exec_run")]))

def list_images (cl : PodmanClient) (all : Json) : Json :=
  except_to_result (do
    let images ← cl.images_list all
    pure (Json.arr (images.map (fun img => Json.obj
      [("id", .str img.short_id), ("tags", img.tags),
       ("size", (img.attrs.lookup "Size").getD (.num 0)),
       ("created", (img.attrs.lookup "Created").getD (.str ""))]))))

def pull_image (cl : PodmanClient) (repository tag : Json) : Json :=
  except_to_result (do
    let result ← cl.images_pull repository tag
    let image : Option PullItem :=
      match result with
      | .many (x :: _) => some x
      | .many [] => none
      | .single x => some x
    match image with
    | some (.with_id short_id tags) =>
        pure (Json.obj [("id", .str short_id),
          ("tags", tags.getD (Json.arr [])), ("status", .str "pulled")])
    | some .bare =>
        pure (Json.obj [("repository", repository), ("tag", tag),
          ("status", .str "pulled")])
    | none =>
        pure (Json.obj [("repository", repository), ("tag", tag),
          ("status", .str "pulled")]))

def remove_image (cl : PodmanClient) (image_id force : Json) : Json :=
  except_to_result (do
    let image ← cl.images_get image_id
    let image_tags := image.tags
    let image_short_id := image.short_id
    cl.images_remove image_id force
    pure (Json.obj [("id", .str image_short_id), ("tags", image_tags),
      ("status", .str "removed")]))

def get_system_info (cl : PodmanClient) : Json :=
  except_to_result (do
    let i ← cl.info
    pure i)

end PodmanTools

/-- The sixteen operation names `PodmanTools` defines. -/
inductive ToolName where
  | list_containers
  | inspect_container
  | run_container
  | create_container
  | start_container
  | stop_container
  | restart_container
  | remove_container
  | pause_container
  | unpause_container
  | get_container_logs
  | exec_command
  | list_images
  | pull_image
  | remove_image
  | get_system_info
deriving DecidableEq, Repr

def ToolName.name : ToolName → String
  | .list_containers => "list_containers"
  | .inspect_container => "inspect_container"
  | .run_container => "run_container"
  | .create_container => "create_container"
  | .start_container => "start_container"
  | .stop_container => "stop_container"
  | .restart_container => "restart_container"
  | .remove_container => "remove_container"
  | .pause_container => "pause_container"
  | .unpause_container => "unpause_container"
  | .get_container_logs => "get_container_logs"
  | .exec_command => "exec_command"
  | .list_images => "list_images"
  | .pull_image => "pull_image"
  | .remove_image => "remove_image"
  | .get_system_info => "get_system_info"

def ToolName.all : List ToolName :=
  [.list_containers, .inspect_container, .run_container, .create_container,
   .start_container, .stop_container, .restart_container, .remove_container,
   .pause_container, .unpause_container, .get_container_logs, .exec_command,
   .list_images, .pull_image, .remove_image, .get_system_info]

def ToolName.of_string (s : String) : Option ToolName :=
  if s == "list_containers" then some .list_containers
  else if s == "inspect_container" then some .inspect_container
  else if s == "run_container" then some .run_container
  else if s == "create_container" then some .create_container
  else if s == "start_container" then some .start_container
  else if s == "stop_container" then some .stop_container
  else if s == "restart_container" then some .restart_container
  else if s == "remove_container" then some .remove_container
  else if s == "pause_container" then some .pause_container
  else if s == "unpause_container" then some .unpause_container
  else if s == "get_container_logs" then some .get_container_logs
  else if s == "exec_command" then some .exec_command
  else if s == "list_images" then some .list_images
  else if s == "pull_image" then some .pull_image
  else if s == "remove_image" then some .remove_image
  else if s == "get_system_info" then some .get_system_info
  else none

/-- Python keyword-argument binding for `method(**params)` against a
signature with `required` parameters and `optional` (defaulted) ones:
every required name must be supplied and no key may fall outside the
signature, else the call raises TypeError. -/
def check_binding (params : List (String × Json)) (required optional : List String) : Bool :=
  required.all (fun k => has_key params k)
    && params.all (fun p => (required ++ optional).contains p.1)

/-- The bound value of parameter `k`, or its declared default. -/
def arg_get (params : List (String × Json)) (k : String) (d : Json) : Json :=
  (params.lookup k).getD d

/-- Binds `params` onto the named operation and runs it; a binding mismatch
is the TypeError Python raises before the operation body starts. -/
def call_tool (cl : PodmanClient) (t : ToolName) (params : List (String × Json)) :
    Except PyErr Json :=
  let bind_err : Except PyErr Json :=
    .error (.typeError (t.name ++ "() got unexpected or missing keyword arguments"))
  match t with
  | .list_containers =>
      if check_binding params [] ["all"] then
        .ok (PodmanTools.list_containers cl (arg_get params "all" (.bool false)))
      else bind_err
  | .inspect_container =>
      if check_binding params ["container_id"] [] then
        .ok (PodmanTools.inspect_container cl (arg_get params "container_id" .null))
      else bind_err
  | .run_container =>
      if check_binding params ["image"] ["command", "detach"] then
        .ok (PodmanTools.run_container cl (arg_get params "image" .null)
          (arg_get params "command" .null) (arg_get params "detach" (.bool true)))
      else bind_err
  | .create_container =>
      if check_binding params ["image"] ["command", "name"] then
        .ok (PodmanTools.create_container cl (arg_get params "image" .null)
          (arg_get params "command" .null) (arg_get params "name" .null))
      else bind_err
  | .start_container =>
      if check_binding params ["container_id"] [] then
        .ok (PodmanTools.start_container cl (arg_get params "container_id" .null))
      else bind_err
  | .stop_container =>
      if check_binding params ["container_id"] [] then
        .ok (PodmanTools.stop_container cl (arg_get params "container_id" .null))
      else bind_err
  | .restart_container =>
      if check_binding params ["container_id"] [] then
        .ok (PodmanTools.restart_container cl (arg_get params "container_id" .null))
      else bind_err
  | .remove_container =>
      if check_binding params ["container_id"] ["force"] then
        .ok (PodmanTools.remove_container cl (arg_get params "container_id" .null)
          (arg_get params "force" (.bool false)))
      else bind_err
  | .pause_container =>
      if check_binding params ["container_id"] [] then
        .ok (PodmanTools.pause_container cl (arg_get params "container_id" .null))
      else bind_err
  | .unpause_container =>
      if check_binding params ["container_id"] [] then
        .ok (PodmanTools.unpause_container cl (arg_get params "container_id" .null))
      else bind_err
  | .get_container_logs =>
      if check_binding params ["container_id"] ["tail", "since", "follow"] then
        .ok (PodmanTools.get_container_logs cl (arg_get params "container_id" .null)
          (arg_get params "tail" (.str "all")) (arg_get params "since" .null)
          (arg_get params "follow" (.bool false)))
      else bind_err
  | .exec_command =>
      if check_binding params ["container_id", "command"] ["workdir"] then
        .ok (PodmanTools.exec_command cl (arg_get params "container_id" .null)
          (arg_get params "command" .null) (arg_get params "workdir" .null))
      else bind_err
  | .list_images =>
      if check_binding params [] ["all"] then
        .ok (PodmanTools.list_images cl (arg_get params "all" (.bool false)))
      else bind_err
  | .pull_image =>
      if check_binding params ["repository"] ["tag"] then
        .ok (PodmanTools.pull_image cl (arg_get params "repository" .null)
          (arg_get params "tag" (.str "latest")))
      else bind_err
  | .remove_image =>
      if check_binding params ["image_id"] ["force"] then
        .ok (PodmanTools.remove_image cl (arg_get params "image_id" .null)
          (arg_get params "force" (.bool false)))
      else bind_err
  | .get_system_info =>
      if check_binding params [] [] then
        .ok (PodmanTools.get_system_info cl)
      else bind_err

/-- The value a resolved-attribute call hands back to the dispatcher:
`jval v` when the Python value is JSON-serializable with JSON image `v`,
`unser t` when it is not — `json.dumps` then raises
`TypeError("Object of type t is not JSON serializable")` once the success
envelope wrapping it reaches serialization in `application`. -/
inductive PyRetVal where
  | jval (v : Json)
  | unser (py_type : String)
deriving DecidableEq, Repr

/-- An attribute `getattr(self.podman_tools, name, None)` can resolve,
classified by how the dispatcher's keyword-only call `attr(**params)`
consumes it. Besides the sixteen operation methods, a `PodmanTools`
instance (a plain class deriving from `object`) exposes: its `client`
instance attribute and the non-callable data attributes `__doc__`,
`__dict__`, `__module__`, `__weakref__` (all failing the dispatcher's
`callable` test), its own `__init__`, and the callables inherited from
`object`. The inherited callables split into those accepting the empty
keyword call and returning a value (`zero_arg`: `__str__`, `__repr__`,
`__dir__`, `__sizeof__`, `__hash__`, `__init_subclass__`,
`__subclasshook__`, `__class__`, `__reduce__`, `__getstate__`) and those
requiring positional arguments, which raise TypeError under every
keyword-only call (`needs_args`: the six rich comparisons, `__format__`,
`__getattribute__`, `__setattr__`, `__delattr__`, `__reduce_ex__`,
`__new__`). -/
inductive PtAttr where
  | tool (t : ToolName)
  | init_method
  | client_attr
  | value_attr (descr : String)
  | zero_arg (result : PyRetVal)
  | needs_args (msg : String)
deriving DecidableEq, Repr

/-- `getattr(self.podman_tools, nm, None)`, modelled on CPython 3.11 (on
interpreters without `object.__getstate__` that one name is unresolved
and, being absent, would fall to the `-32601` branch like any unknown
name). Runtime-dependent payloads — the address in `__str__`/`__repr__`,
the hash, the size, the attribute-name list of `__dir__` — are fixed
representative values: no theorem depends on them, only on their
JSON-serializability. `__class__` called with no arguments constructs a
fresh `PodmanTools` instance; `__reduce__` returns a tuple whose first
element is a function; `__getstate__` returns the instance dict holding
the `PodmanClient`; `__subclasshook__` returns `NotImplemented` — all
four results make `json.dumps` raise, with the Python type it names
recorded in `unser`. -/
def pt_getattr (nm : String) : Option PtAttr :=
  match ToolName.of_string nm with
  | some t => some (.tool t)
  | none =>
      if nm == "__init__" then some .init_method
      else if nm == "client" then some .client_attr
      else if nm == "__doc__" then some (.value_attr "the class docstring, a str")
      else if nm == "__dict__" then some (.value_attr "the instance dict")
      else if nm == "__module__" then some (.value_attr "the module name, a str")
      else if nm == "__weakref__" then some (.value_attr "None")
      else if nm == "__str__" then
        some (.zero_arg (.jval (.str "<__main__.PodmanTools object at 0x0>")))
      else if nm == "__repr__" then
        some (.zero_arg (.jval (.str "<__main__.PodmanTools object at 0x0>")))
      else if nm == "__dir__" then
        some (.zero_arg (.jval (.arr [.str "client"])))
      else if nm == "__sizeof__" then some (.zero_arg (.jval (.num 48)))
      else if nm == "__hash__" then some (.zero_arg (.jval (.num 0)))
      else if nm == "__init_subclass__" then some (.zero_arg (.jval .null))
      else if nm == "__subclasshook__" then
        some (.zero_arg (.unser "NotImplementedType"))
      else if nm == "__class__" then some (.zero_arg (.unser "PodmanTools"))
      else if nm == "__reduce__" then some (.zero_arg (.unser "function"))
      else if nm == "__getstate__" then some (.zero_arg (.unser "PodmanClient"))
      else if nm == "__eq__" then some (.needs_args "expected 1 argument, got 0")
      else if nm == "__ne__" then some (.needs_args "expected 1 argument, got 0")
      else if nm == "__lt__" then some (.needs_args "expected 1 argument, got 0")
      else if nm == "__le__" then some (.needs_args "expected 1 argument, got 0")
      else if nm == "__gt__" then some (.needs_args "expected 1 argument, got 0")
      else if nm == "__ge__" then some (.needs_args "expected 1 argument, got 0")
      else if nm == "__format__" then
        some (.needs_args "PodmanTools.__format__() takes exactly one argument (0 given)")
      else if nm == "__getattribute__" then
        some (.needs_args "expected 1 argument, got 0")
      else if nm == "__setattr__" then
        some (.needs_args "expected 2 arguments, got 0")
      else if nm == "__delattr__" then
        some (.needs_args "expected 1 argument, got 0")
      else if nm == "__reduce_ex__" then
        some (.needs_args "PodmanTools.__reduce_ex__() takes exactly one argument (0 given)")
      else if nm == "__new__" then
        some (.needs_args "object.__new__(): not enough arguments")
      else none

def PtAttr.callable : PtAttr → Bool
  | .tool _ => true
  | .init_method => true
  | .zero_arg _ => true
  | .needs_args _ => true
  | .client_attr => false
  | .value_attr _ => false

/-- Calling a resolved attribute with `**params`.
`PodmanTools.__init__(self)` declares no further parameters: with empty
`params` it rebinds `self.client` and returns `None`. A `zero_arg`
inherited callable likewise accepts only the empty keyword call and
raises TypeError under any keyword, and a `needs_args` callable raises
TypeError under every keyword-only call. The two non-callable branches
are unreachable from the dispatcher, which tests `callable` first. -/
def call_attr (cl : PodmanClient) (a : PtAttr) (params : List (String × Json)) :
    Except PyErr PyRetVal :=
  match a with
  | .tool t => (call_tool cl t params).map (fun v => .jval v)
  | .init_method =>
      if params.isEmpty then .ok (.jval .null)
      else .error (.typeError "__init__() got an unexpected keyword argument")
  | .zero_arg result =>
      if params.isEmpty then .ok result
      else .error (.typeError "takes no keyword arguments")
  | .needs_args msg => .error (.typeError msg)
  | .client_attr => .error (.typeError "\x27PodmanClient\x27 object is not callable")
  | .value_attr _ => .error (.typeError "object is not callable")

/-- The static tools manifest built once in `MCPHandler.__init__`
(`self.tools_manifest`), transcribed field for field. -/
def tools_manifest : Json := .obj [
  ("list_containers", .obj [
    ("description", .str "Lists Podman containers."),
    ("parameters", .obj [
      ("type", .str "object"),
      ("properties", .obj [
        ("all", .obj [
          ("type", .str "boolean"),
          ("description", .str "Show all containers (default: False).")])])])]),
  ("inspect_container", .obj [
    ("description", .str "Inspect a specific container."),
    ("parameters", .obj [
      ("type", .str "object"),
      ("properties", .obj [
        ("container_id", .obj [
          ("type", .str "string"),
          ("description", .str "The ID or name of the container.")])]),
      ("required", .arr [.str "container_id"])])]),
  ("run_container", .obj [
    ("description", .str "Run a new container from an image."),
    ("parameters", .obj [
      ("type", .str "object"),
      ("properties", .obj [
        ("image", .obj [
          ("type", .str "string"),
          ("description", .str "The container image to run (e.g., \x27alpine\x27).")]),
        ("command", .obj [
          ("type", .str "string"),
          ("description", .str "The command to execute in the container.")]),
        ("detach", .obj [
          ("type", .str "boolean"),
          ("description", .str "Run container in background (default: True).")])]),
      ("required", .arr [.str "image"])])]),
  ("create_container", .obj [
    ("description", .str "Create a new container without starting it."),
    ("parameters", .obj [
      ("type", .str "object"),
      ("properties", .obj [
        ("image", .obj [
          ("type", .str "string"),
          ("description", .str "The container image to use.")]),
        ("command", .obj [
          ("type", .str "string"),
          ("description", .str "The command to execute in the container.")]),
        ("name", .obj [
          ("type", .str "string"),
          ("description", .str "Optional name for the container.")])]),
      ("required", .arr [.str "image"])])]),
  ("start_container", .obj [
    ("description", .str "Start a stopped container."),
    ("parameters", .obj [
      ("type", .str "object"),
      ("properties", .obj [
        ("container_id", .obj [
          ("type", .str "string"),
          ("description", .str "The ID or name of the container to start.")])]),
      ("required", .arr [.str "container_id"])])]),
  ("stop_container", .obj [
    ("description", .str "Stop a running container."),
    ("parameters", .obj [
      ("type", .str "object"),
      ("properties", .obj [
        ("container_id", .obj [
          ("type", .str "string"),
          ("description", .str "The ID or name of the container to stop.")])]),
      ("required", .arr [.str "container_id"])])]),
  ("restart_container", .obj [
    ("description", .str "Restart a container."),
    ("parameters", .obj [
      ("type", .str "object"),
      ("properties", .obj [
        ("container_id", .obj [
          ("type", .str "string"),
          ("description", .str "The ID or name of the container to restart.")])]),
      ("required", .arr [.str "container_id"])])]),
  ("remove_container", .obj [
    ("description", .str "Remove a container."),
    ("parameters", .obj [
      ("type", .str "object"),
      ("properties", .obj [
        ("container_id", .obj [
          ("type", .str "string"),
          ("description", .str "The ID or name of the container to remove.")]),
        ("force", .obj [
          ("type", .str "boolean"),
          ("description", .str "Force removal even if running (default: False).")])]),
      ("required", .arr [.str "container_id"])])]),
  ("pause_container", .obj [
    ("description", .str "Pause a running container."),
    ("parameters", .obj [
      ("type", .str "object"),
      ("properties", .obj [
        ("container_id", .obj [
          ("type", .str "string"),
          ("description", .str "The ID or name of the container to pause.")])]),
      ("required", .arr [.str "container_id"])])]),
  ("unpause_container", .obj [
    ("description", .str "Unpause a paused container."),
    ("parameters", .obj [
      ("type", .str "object"),
      ("properties", .obj [
        ("container_id", .obj [
          ("type", .str "string"),
          ("description", .str "The ID or name of the container to unpause.")])]),
      ("required", .arr [.str "container_id"])])]),
  ("get_container_logs", .obj [
    ("description", .str "Get logs from a container."),
    ("parameters", .obj [
      ("type", .str "object"),
      ("properties", .obj [
        ("container_id", .obj [
          ("type", .str "string"),
          ("description", .str "The ID or name of the container.")]),
        ("tail", .obj [
          ("type", .str "string"),
          ("description", .str "Number of lines to show from end (default: \x27all\x27).")]),
        ("since", .obj [
          ("type", .str "string"),
          ("description", .str "Show logs since timestamp or duration.")]),
        ("follow", .obj [
          ("type", .str "boolean"),
          ("description", .str "Follow log output (default: False).")])]),
      ("required", .arr [.str "container_id"])])]),
  ("exec_command", .obj [
    ("description", .str "Execute a command in a running container."),
    ("parameters", .obj [
      ("type", .str "object"),
      ("properties", .obj [
        ("container_id", .obj [
          ("type", .str "string"),
          ("description", .str "The ID or name of the container.")]),
        ("command", .obj [
          ("type", .str "string"),
          ("description", .str "The command to execute.")]),
        ("workdir", .obj [
          ("type", .str "string"),
          ("description", .str "Working directory for the command.")])]),
      ("required", .arr [.str "container_id", .str "command"])])]),
  ("list_images", .obj [
    ("description", .str "List container images."),
    ("parameters", .obj [
      ("type", .str "object"),
      ("properties", .obj [
        ("all", .obj [
          ("type", .str "boolean"),
          ("description", .str "Show all images including intermediate ones (default: False).")])])])]),
  ("pull_image", .obj [
    ("description", .str "Pull an image from a registry."),
    ("parameters", .obj [
      ("type", .str "object"),
      ("properties", .obj [
        ("repository", .obj [
          ("type", .str "string"),
          ("description", .str "The repository name (e.g., \x27alpine\x27).")]),
        ("tag", .obj [
          ("type", .str "string"),
          ("description", .str "The tag to pull (default: \x27latest\x27).")])]),
      ("required", .arr [.str "repository"])])]),
  ("remove_image", .obj [
    ("description", .str "Remove an image."),
    ("parameters", .obj [
      ("type", .str "object"),
      ("properties", .obj [
        ("image_id", .obj [
          ("type", .str "string"),
          ("description", .str "The ID or name of the image to remove.")]),
        ("force", .obj [
          ("type", .str "boolean"),
          ("description", .str "Force removal (default: False).")])]),
      ("required", .arr [.str "image_id"])])]),
  ("get_system_info", .obj [
    ("description", .str "Get Podman system information."),
    ("parameters", .obj [
      ("type", .str "object"),
      ("properties", .obj [])])])]

/-- `MCPHandler._create_success_response`. -/
def create_success_response (result req_id : Json) : Json :=
  .obj [("jsonrpc", .str "2.0"), ("result", result), ("id", req_id)]

/-- `MCPHandler._create_error_response`. -/
def create_error_response (code : Int) (message : String) (req_id : Json) : Json :=
  .obj [("jsonrpc", .str "2.0"),
    ("error", .obj [("code", .num code), ("message", .str message)]),
    ("id", req_id)]

/-- The `try` block of `MCPHandler.handle_request`, line for line:
membership validation, field reads, the `tools/list` branch, the
`getattr`/`callable` dispatch. An `Except.error` is a Python exception
leaving the `try` block. The returned pair is the response together with
the serialization obstruction: `none` when `json.dumps` accepts the
response, `some t` when its result slot holds a non-JSON-serializable
value of Python type `t` — the `Json` component then stands in `null` for
that value, which never reaches the wire because `application`'s
`json.dumps` raises first. -/
def handle_request_body (cl : PodmanClient) (request_data : Json) :
    Except PyErr (Json × Option String) := do
  let has_method ← json_contains request_data "method"
  let has_jsonrpc ← json_contains request_data "jsonrpc"
  if !has_method || !has_jsonrpc then do
    let idv ← dict_get request_data "id" .null
    pure (create_error_response (-32600) "Invalid Request" idv, none)
  else do
    let method_name ← item_get request_data "method"
    let params_value ← dict_get request_data "params" (.obj [])
    let request_id ← dict_get request_data "id" .null
    if Json.beq method_name (.str "tools/list") then
      pure (create_success_response tools_manifest request_id, none)
    else do
      let nm ← match method_name with
        | .str s => Except.ok s
        | v => Except.error (.typeError
            ("attribute name must be string, not \x27" ++ v.type_name ++ "\x27"))
      match pt_getattr nm with
      | some a =>
          if a.callable then do
            let params ← match params_value with
              | .obj fields => Except.ok fields
              | _ => Except.error (.typeError
                  "argument after ** must be a mapping")
            let result ← call_attr cl a params
            match result with
            | .jval v => pure (create_success_response v request_id, none)
            | .unser t => pure (create_success_response .null request_id, some t)
          else
            pure (create_error_response (-32601) "Method not found" request_id, none)
      | none => pure (create_error_response (-32601) "Method not found" request_id, none)

/-- `MCPHandler.handle_request`: the `try` body plus its
`except Exception` arm, which itself evaluates `request_data.get("id")`
and therefore can raise in turn (an `Except.error` here escapes the
method). Keeps the serialization annotation of `handle_request_body`
(error envelopes are always serializable). -/
def handle_request_run (cl : PodmanClient) (request_data : Json) :
    Except PyErr (Json × Option String) :=
  match handle_request_body cl request_data with
  | .ok response => .ok response
  | .error e =>
      match dict_get request_data "id" .null with
      | .ok idv =>
          .ok (create_error_response (-32603) ("Internal error: " ++ e.py_str) idv, none)
      | .error e2 => .error e2

/-- The response value `MCPHandler.handle_request` returns, dropping the
serialization annotation. -/
def handle_request (cl : PodmanClient) (request_data : Json) : Except PyErr Json :=
  (handle_request_run cl request_data).map Prod.fst

/-- Outcome of the WSGI application on one request: an HTTP response
(status plus the JSON body `json.dumps` serializes), or an exception
escaping `application` (werkzeug then produces a 500 outside the model). -/
inductive AppResult where
  | resp (status : Nat) (body : Json)
  | crash (e : PyErr)
deriving DecidableEq, Repr

/-- The `application` WSGI entry point. `decoded_body` is the outcome of
`json.loads(request.data)`: `none` models a `JSONDecodeError`, which is the
only exception `application` catches. `json.dumps(response_data)` raises
TypeError when the response carries a non-serializable value (the `some t`
annotation); that TypeError is not a `JSONDecodeError` and escapes
`application`, as does any exception out of `handle_request`. The
non-POST branch returns a plain text body, modelled as a JSON string. -/
def application (cl : PodmanClient) (http_method : String) (decoded_body : Option Json) :
    AppResult :=
  if http_method == "POST" then
    match decoded_body with
    | some request_data =>
        match handle_request_run cl request_data with
        | .ok (response_data, none) => .resp 200 response_data
        | .ok (_, some t) =>
            .crash (.typeError ("Object of type " ++ t ++ " is not JSON serializable"))
        | .error e => .crash e
    | none => .resp 400 (create_error_response (-32700) "Parse error" .null)
  else
    .resp 405 (.str "MCP Server for Podman. Please use POST with a JSON-RPC payload.")

/-- A well-formed JSON-RPC request object with all four fields. -/
def mk_request (method : String) (params req_id : Json) : Json :=
  .obj [("jsonrpc", .str "2.0"), ("method", .str method),
    ("params", params), ("id", req_id)]

/-- A `tools/list` request with an optional `id` field. -/
def tools_list_request : Option Json → Json
  | some v => .obj [("jsonrpc", .str "2.0"), ("method", .str "tools/list"), ("id", v)]
  | none => .obj [("jsonrpc", .str "2.0"), ("method", .str "tools/list")]

/-- A collaborator every call against which raises with message `e`. -/
def failing_client (e : String) : PodmanClient where
  containers_list := fun _ => .error e
  containers_get := fun _ => .error e
  containers_run := fun _ _ _ => .error e
  containers_create := fun _ _ _ => .error e
  container_start := fun _ => .error e
  container_stop := fun _ => .error e
  container_restart := fun _ => .error e
  container_remove := fun _ _ => .error e
  container_pause := fun _ => .error e
  container_unpause := fun _ => .error e
  container_logs := fun _ _ _ _ => .error e
  container_exec_run := fun _ _ _ => .error e
  images_list := fun _ => .error e
  images_get := fun _ => .error e
  images_pull := fun _ _ => .error e
  images_remove := fun _ _ => .error e
  info := .error e

/-- A fixed concrete collaborator for closed instances. -/
def sample_client : PodmanClient := failing_client "boom"

/-- A collaborator whose container resolution yields `c` and whose
`exec_run` yields `r`. -/
def exec_client (c : Container) (r : ExecReturn) : PodmanClient :=
  { failing_client "unused" with
    containers_get := fun _ => .ok c
    container_exec_run := fun _ _ _ => .ok r }

/-- A JSON-RPC envelope in the sense of the spec: carries the literal
`jsonrpc: "2.0"` field and exactly one of `result` and `error`. -/
def wf_envelope (j : Json) : Bool :=
  match j with
  | .obj fields =>
      (fields.lookup "jsonrpc" == some (Json.str "2.0"))
        && (has_key fields "result" != has_key fields "error")
  | _ => false

/-- The `result` payload of a dispatch outcome, when it is a success
envelope. -/
def result_of (r : Except PyErr Json) : Option Json :=
  match r with
  | .ok (.obj fields) => fields.lookup "result"
  | _ => none

/-- Does the resolved attribute set make `method_name` dispatchable?
(`callable(getattr(self.podman_tools, method_name, None))`). -/
def resolves_callable (nm : String) : Bool :=
  match pt_getattr nm with
  | some a => a.callable
  | none => false

/-- The `exec_command` result shape claim C10 describes, written from the
claim text (not from the source): `{exit_code, output}` with bytes output
decoded as UTF-8 when the raw result exposes the two attributes or is a
tuple of length at least 2, and the fixed error dict for every other
shape. -/
def exec_claimed_shape : ExecReturn → Json
  | .with_attrs exit_code output =>
      .obj [("exit_code", exit_code), ("output", .str output.decode_or_str)]
  | .tup elems =>
      if 2 ≤ elems.length then
        .obj [("exit_code", (elems.getD 0 (.pyint 0)).as_json),
          ("output", .str ((elems.getD 1 (.pyint 0)).decode_or_str))]
      else .obj [("error", .str "Unexpected result format from exec_run")]
  | .other => .obj [("error", .str "Unexpected result format from exec_run")]

theorem wf_success (r idv : Json) : wf_envelope (create_success_response r idv) = true := rfl

theorem wf_error (c : Int) (m : String) (idv : Json) :
    wf_envelope (create_error_response c m idv) = true := rfl

theorem handle_request_body_wf (cl : PodmanClient) (rd body : Json) (flag : Option String)
    (h : handle_request_body cl rd = .ok (body, flag)) : wf_envelope body = true := by
  unfold handle_request_body at h
  simp only [bind, Except.bind, pure, Except.pure] at h
  repeat' split at h
  all_goals (try cases h)
  all_goals (first | exact wf_success _ _ | exact wf_error _ _ _)

theorem handle_request_run_wf (cl : PodmanClient) (rd body : Json) (flag : Option String)
    (h : handle_request_run cl rd = .ok (body, flag)) : wf_envelope body = true := by
  unfold handle_request_run at h
  split at h
  case _ resp hb =>
    cases h
    exact handle_request_body_wf cl rd _ _ hb
  case _ e hb =>
    split at h
    · cases h; exact wf_error _ _ _
    · cases h

theorem handle_request_wf (cl : PodmanClient) (rd body : Json)
    (h : handle_request cl rd = .ok body) : wf_envelope body = true := by
  unfold handle_request at h
  cases hr : handle_request_run cl rd with
  | ok p =>
      rw [hr] at h
      simp only [Except.map, Except.ok.injEq] at h
      subst h
      exact handle_request_run_wf cl rd p.1 p.2 hr
  | error e =>
      rw [hr] at h
      simp [Except.map] at h

theorem handle_request_obj_ok (cl : PodmanClient) (fields : List (String × Json)) :
    ∃ outcome, handle_request_run cl (.obj fields) = .ok outcome := by
  cases hb : handle_request_body cl (.obj fields) with
  | ok b => exact ⟨b, by simp [handle_request_run, hb]⟩
  | error e =>
      exact ⟨(create_error_response (-32603) ("Internal error: " ++ e.py_str)
          ((fields.lookup "id").getD .null), none),
        by simp [handle_request_run, hb, dict_get]⟩

/-- C1: for every one of the sixteen executor operations, when the
collaborator call raises (message `e`), the operation catches it and
returns `{"error": e}`, and the dispatcher delivers that value as the
`result` of a JSON-RPC success envelope echoing the request id, with HTTP
status 200. Each conjunct invokes one operation (with its required
parameters) against a collaborator all of whose calls raise `e`. -/
theorem operation_failure_wrapped_in_success_envelope (e : String) (idv : Json) :
    application (failing_client e) "POST"
        (some (mk_request "list_containers" (.obj []) idv))
      = .resp 200 (create_success_response (.obj [("error", .str e)]) idv)
    ∧ application (failing_client e) "POST"
        (some (mk_request "inspect_container" (.obj [("container_id", .str "c")]) idv))
      = .resp 200 (create_success_response (.obj [("error", .str e)]) idv)
    ∧ application (failing_client e) "POST"
        (some (mk_request "run_container" (.obj [("image", .str "alpine")]) idv))
      = .resp 200 (create_success_response (.obj [("error", .str e)]) idv)
    ∧ application (failing_client e) "POST"
        (some (mk_request "create_container" (.obj [("image", .str "alpine")]) idv))
      = .resp 200 (create_success_response (.obj [("error", .str e)]) idv)
    ∧ application (failing_client e) "POST"
        (some (mk_request "start_container" (.obj [("container_id", .str "c")]) idv))
      = .resp 200 (create_success_response (.obj [("error", .str e)]) idv)
    ∧ application (failing_client e) "POST"
        (some (mk_request "stop_container" (.obj [("container_id", .str "doesnotexist")]) idv))
      = .resp 200 (create_success_response (.obj [("error", .str e)]) idv)
    ∧ application (failing_client e) "POST"
        (some (mk_request "restart_container" (.obj [("container_id", .str "c")]) idv))
      = .resp 200 (create_success_response (.obj [("error", .str e)]) idv)
    ∧ application (failing_client e) "POST"
        (some (mk_request "remove_container" (.obj [("container_id", .str "c")]) idv))
      = .resp 200 (create_success_response (.obj [("error", .str e)]) idv)
    ∧ application (failing_client e) "POST"
        (some (mk_request "pause_container" (.obj [("container_id", .str "c")]) idv))
      = .resp 200 (create_success_response (.obj [("error", .str e)]) idv)
    ∧ application (failing_client e) "POST"
        (some (mk_request "unpause_container" (.obj [("container_id", .str "c")]) idv))
      = .resp 200 (create_success_response (.obj [("error", .str e)]) idv)
    ∧ application (failing_client e) "POST"
        (some (mk_request "get_container_logs" (.obj [("container_id", .str "c")]) idv))
      = .resp 200 (create_success_response (.obj [("error", .str e)]) idv)
    ∧ application (failing_client e) "POST"
        (some (mk_request "exec_command"
          (.obj [("container_id", .str "c"), ("command", .str "ls")]) idv))
      = .resp 200 (create_success_response (.obj [("error", .str e)]) idv)
    ∧ application (failing_client e) "POST"
        (some (mk_request "list_images" (.obj []) idv))
      = .resp 200 (create_success_response (.obj [("error", .str e)]) idv)
    ∧ application (failing_client e) "POST"
        (some (mk_request "pull_image" (.obj [("repository", .str "alpine")]) idv))
      = .resp 200 (create_success_response (.obj [("error", .str e)]) idv)
    ∧ application (failing_client e) "POST"
        (some (mk_request "remove_image" (.obj [("image_id", .str "i")]) idv))
      = .resp 200 (create_success_response (.obj [("error", .str e)]) idv)
    ∧ application (failing_client e) "POST"
        (some (mk_request "get_system_info" (.obj []) idv))
      = .resp 200 (create_success_response (.obj [("error", .str e)]) idv) :=
  ⟨rfl, rfl, rfl, rfl, rfl, rfl, rfl, rfl, rfl, rfl, rfl, rfl, rfl, rfl, rfl, rfl⟩

/-- C2 counterexample: the method string `"__init__"` is not `"tools/list"`
and is none of the sixteen registered operation names, yet the dispatcher
resolves it through `getattr` to the inherited constructor, calls it, and
returns a success envelope with result `null` — not the claimed
`-32601` error envelope. -/
theorem dunder_method_dispatches_counterexample :
    application sample_client "POST" (some (mk_request "__init__" (.obj []) (.num 5)))
      = AppResult.resp 200 (create_success_response .null (.num 5))
    ∧ ToolName.of_string "__init__" = none
    ∧ create_success_response .null (.num 5)
        ≠ create_error_response (-32601) "Method not found" (.num 5) :=
  ⟨by decide, rfl, by decide⟩

/-- C2 (amended): for every well-formed request whose method string is not
`"tools/list"` and does not resolve through `getattr` to a callable
attribute of the executor object — the sixteen registered operations plus
the callables inherited from `object`, such as `__init__`, `__str__` or
`__eq__` — the dispatcher returns an error envelope with code `-32601`,
echoing the request id, with HTTP status 200. -/
theorem unregistered_method_not_found (cl : PodmanClient) (nm : String) (p idv : Json)
    (h1 : nm ≠ "tools/list") (h2 : resolves_callable nm = false) :
    application cl "POST" (some (mk_request nm p idv))
      = AppResult.resp 200 (create_error_response (-32601) "Method not found" idv) := by
  have e1 : (nm == "tools/list") = false := beq_eq_false_iff_ne.mpr h1
  unfold resolves_callable at h2
  cases hm : pt_getattr nm with
  | none =>
      simp [application, handle_request_run, handle_request_body, mk_request, json_contains,
        dict_get, item_get, has_key, bind, Except.bind, pure, Except.pure, Json.beq, e1, hm,
        List.lookup]
  | some a =>
      rw [hm] at h2
      simp only at h2
      simp [application, handle_request_run, handle_request_body, mk_request, json_contains,
        dict_get, item_get, has_key, bind, Except.bind, pure, Except.pure, Json.beq, e1, hm,
        List.lookup, h2]

theorem unregistered_method_not_found_witness :
    application sample_client "POST" (some (mk_request "no_such_tool" (.obj []) (.num 5)))
      = AppResult.resp 200 (create_error_response (-32601) "Method not found" (.num 5)) :=
  unregistered_method_not_found sample_client "no_such_tool" (.obj []) (.num 5)
    (by decide) (by decide)

/-- C3 counterexamples: two JSON-decodable bodies on which dispatch does
not deliver a status-200 envelope. (i) the body `5`: the membership test
raises TypeError and the `except` arm then evaluates
`request_data.get("id")` on an `int`, raising AttributeError, which
escapes the handler. (ii) the object body with method `"__class__"`: the
dispatcher resolves the inherited class object, calling it constructs a
fresh `PodmanTools` instance, and `json.dumps` on the resulting success
envelope raises TypeError, escaping `application`. In both cases
werkzeug answers 500: no envelope, no status 200. -/
theorem nonobject_body_crash_counterexample :
    application sample_client "POST" (some (Json.num 5))
      = AppResult.crash (PyErr.attributeError
          "\x27int\x27 object has no attribute \x27get\x27")
    ∧ application sample_client "POST" (some (mk_request "__class__" (.obj []) (.num 7)))
      = AppResult.crash (PyErr.typeError
          "Object of type PodmanTools is not JSON serializable") :=
  ⟨by decide, by decide⟩

/-- C3 (amended): for every POST request whose body decodes as a JSON
object, the handler itself returns a response (its `except` arm cannot
raise on an object body); when the dispatcher marks that response
JSON-serializable, the application answers HTTP status 200 with a
well-formed JSON-RPC envelope, and in the remaining case — the method
resolved an inherited attribute whose call result `json.dumps` rejects —
the serialization step raises out of `application` instead (the envelope
itself is still well-formed). A body parse failure yields status 400. -/
theorem object_body_yields_envelope_200 (cl : PodmanClient)
    (fields : List (String × Json)) :
    (∃ outcome, handle_request_run cl (.obj fields) = .ok outcome)
    ∧ (∀ body : Json, handle_request_run cl (.obj fields) = .ok (body, none) →
        application cl "POST" (some (.obj fields)) = .resp 200 body
          ∧ wf_envelope body = true)
    ∧ (∀ (body : Json) (t : String),
        handle_request_run cl (.obj fields) = .ok (body, some t) →
        application cl "POST" (some (.obj fields))
            = .crash (.typeError ("Object of type " ++ t ++ " is not JSON serializable"))
          ∧ wf_envelope body = true)
    ∧ application cl "POST" none
        = .resp 400 (create_error_response (-32700) "Parse error" .null) := by
  refine ⟨handle_request_obj_ok cl fields, ?_, ?_, rfl⟩
  · intro body h
    exact ⟨by simp [application, h], handle_request_run_wf cl _ body none h⟩
  · intro body t h
    exact ⟨by simp [application, h], handle_request_run_wf cl _ body (some t) h⟩

theorem object_body_yields_envelope_200_witness :
    application sample_client "POST"
        (some (.obj [("jsonrpc", .str "2.0"), ("method", .str "list_containers")]))
      = AppResult.resp 200
          (create_success_response (.obj [("error", .str "boom")]) .null)
    ∧ wf_envelope (create_success_response (.obj [("error", .str "boom")]) .null) = true :=
  (object_body_yields_envelope_200 sample_client
      [("jsonrpc", .str "2.0"), ("method", .str "list_containers")]).2.1
    (create_success_response (.obj [("error", .str "boom")]) .null) (by rfl)

/-- C4: a `tools/list` request with any id — also with a `null` or absent
id field — returns a success envelope whose result is the manifest, whose
keys are exactly the sixteen registered operation names in order, echoing
the request id (`null` when absent). -/
theorem tools_list_returns_full_manifest (cl : PodmanClient) (idv : Json) :
    handle_request cl (tools_list_request (some idv))
        = .ok (create_success_response tools_manifest idv)
    ∧ handle_request cl (tools_list_request none)
        = .ok (create_success_response tools_manifest .null)
    ∧ (ToolName.all.all (fun t => (tools_manifest.lookup t.name).isSome)) = true
    ∧ (match tools_manifest with
        | .obj fs => fs.map Prod.fst
        | _ => []) = ToolName.all.map ToolName.name
    ∧ ToolName.all.length = 16 :=
  ⟨rfl, rfl, by decide, by decide, rfl⟩

/-- C5: for every decoded request object lacking the `"method"` key or
lacking the `"jsonrpc"` key, the dispatcher returns an error envelope with
code `-32600` ("Invalid Request") whose id is the request's id value when
present and `null` otherwise, with HTTP status 200. -/
theorem missing_envelope_fields_invalid_request (cl : PodmanClient)
    (fields : List (String × Json))
    (h : has_key fields "method" = false ∨ has_key fields "jsonrpc" = false) :
    application cl "POST" (some (.obj fields))
      = AppResult.resp 200 (create_error_response (-32600) "Invalid Request"
          ((fields.lookup "id").getD .null)) := by
  rcases h with h | h <;>
    simp [application, handle_request_run, handle_request_body, json_contains, dict_get, h,
      bind, Except.bind, pure, Except.pure]

theorem missing_envelope_fields_invalid_request_witness :
    application sample_client "POST" (some (.obj [("method", .str "list_containers")]))
      = AppResult.resp 200 (create_error_response (-32600) "Invalid Request" .null) :=
  missing_envelope_fields_invalid_request sample_client
    [("method", .str "list_containers")] (Or.inr (by decide))

/-- C6: when the POST body is not syntactically valid JSON (the decode step
yields no value), the response has HTTP status 400 and its body is the
JSON value `{"jsonrpc": "2.0", "error": {"code": -32700, "message":
"Parse error"}, "id": null}`; the second conjunct gives the exact bytes
`json.dumps` produces for it. -/
theorem parse_failure_returns_400_parse_error (cl : PodmanClient) :
    application cl "POST" none
      = .resp 400 (Json.obj [("jsonrpc", .str "2.0"),
          ("error", .obj [("code", .num (-32700)), ("message", .str "Parse error")]),
          ("id", .null)])
    ∧ (create_error_response (-32700) "Parse error" .null).dumps
      = "\x7b\"jsonrpc\": \"2.0\", \"error\": \x7b\"code\": -32700, \"message\": \"Parse error\"\x7d, \"id\": null\x7d" :=
  ⟨rfl, by decide⟩

/-- C7: a success envelope and an error envelope each carry the literal
`jsonrpc: "2.0"` field and exactly one of `result` and `error`; and every
response the dispatcher hands to the transport satisfies the same
invariant. -/
theorem response_envelope_exclusive :
    (∀ result idv : Json, wf_envelope (create_success_response result idv) = true)
    ∧ (∀ (code : Int) (message : String) (idv : Json),
        wf_envelope (create_error_response code message idv) = true)
    ∧ (∀ (cl : PodmanClient) (rd body : Json),
        handle_request cl rd = .ok body → wf_envelope body = true) :=
  ⟨fun _ _ => rfl, fun _ _ _ => rfl, fun cl rd body h => handle_request_wf cl rd body h⟩

theorem response_envelope_exclusive_witness :
    wf_envelope (create_error_response (-32600) "Invalid Request" .null) = true :=
  response_envelope_exclusive.2.2 sample_client (.obj [("method", .str "list_containers")])
    (create_error_response (-32600) "Invalid Request" .null) (by rfl)

/-- C8: any two `tools/list` dispatches — against any collaborator states,
params and ids, so in particular two consecutive ones — both produce the
one manifest built at initialization as their result, and the serialized
manifests are byte-identical; no dispatch path writes to the manifest (in
the embedding it is a closed constant and `handle_request` is a pure
function of the request). -/
theorem tools_list_manifest_byte_identical (cl cl' : PodmanClient) (p p' idv idv' : Json) :
    result_of (handle_request cl (mk_request "tools/list" p idv)) = some tools_manifest
    ∧ result_of (handle_request cl' (mk_request "tools/list" p' idv')) = some tools_manifest
    ∧ (result_of (handle_request cl (mk_request "tools/list" p idv))).map Json.dumps
        = (result_of (handle_request cl' (mk_request "tools/list" p' idv'))).map Json.dumps :=
  ⟨rfl, rfl, rfl⟩

/-- C9: `list_containers` defaults `all` to `False`, `run_container`
defaults `detach` to `True`, `get_container_logs` defaults `tail` to
`"all"`; invoking each operation with the parameter omitted dispatches
identically to supplying the default explicitly, and the omitted form
reaches the operation with exactly the declared default value. -/
theorem declared_defaults_used (cl : PodmanClient) (idv img cid : Json) :
    handle_request cl (mk_request "list_containers" (.obj []) idv)
        = handle_request cl (mk_request "list_containers" (.obj [("all", .bool false)]) idv)
    ∧ handle_request cl (mk_request "list_containers" (.obj []) idv)
        = .ok (create_success_response (PodmanTools.list_containers cl (.bool false)) idv)
    ∧ handle_request cl (mk_request "run_container" (.obj [("image", img)]) idv)
        = handle_request cl
            (mk_request "run_container" (.obj [("image", img), ("detach", .bool true)]) idv)
    ∧ handle_request cl (mk_request "run_container" (.obj [("image", img)]) idv)
        = .ok (create_success_response (PodmanTools.run_container cl img .null (.bool true)) idv)
    ∧ handle_request cl (mk_request "get_container_logs" (.obj [("container_id", cid)]) idv)
        = handle_request cl (mk_request "get_container_logs"
            (.obj [("container_id", cid), ("tail", .str "all")]) idv)
    ∧ handle_request cl (mk_request "get_container_logs" (.obj [("container_id", cid)]) idv)
        = .ok (create_success_response
            (PodmanTools.get_container_logs cl cid (.str "all") .null (.bool false)) idv) :=
  ⟨rfl, rfl, rfl, rfl, rfl, rfl⟩

/-- C10: when container resolution succeeds and the collaborator's exec
call returns `r` without raising, `exec_command` returns
`{exit_code, output}` (bytes output decoded as UTF-8, other output
stringified) exactly when `r` exposes the `exit_code` and `output`
attributes or is a tuple of length at least 2, and returns
`{"error": "Unexpected result format from exec_run"}` for every other
shape; `exec_claimed_shape` is that case split written from the claim. -/
theorem exec_command_result_normalization (c : Container) (r : ExecReturn)
    (cid cmd wd : Json) :
    PodmanTools.exec_command (exec_client c r) cid cmd wd = exec_claimed_shape r := by
  cases r with
  | with_attrs ec out =>
      cases hw : wd.truthy <;>
        simp [PodmanTools.exec_command, exec_client, hw, except_to_result,
          bind, Except.bind, pure, Except.pure, exec_claimed_shape]
  | tup elems =>
      match elems with
      | [] =>
          cases hw : wd.truthy <;>
            simp [PodmanTools.exec_command, exec_client, hw, except_to_result,
              bind, Except.bind, pure, Except.pure, exec_claimed_shape]
      | [a] =>
          cases hw : wd.truthy <;>
            simp [PodmanTools.exec_command, exec_client, hw, except_to_result,
              bind, Except.bind, pure, Except.pure, exec_claimed_shape]
      | a :: b :: rest =>
          cases hw : wd.truthy <;>
            simp [PodmanTools.exec_command, exec_client, hw, except_to_result,
              bind, Except.bind, pure, Except.pure, exec_claimed_shape]
  | other =>
      cases hw : wd.truthy <;>
        simp [PodmanTools.exec_command, exec_client, hw, except_to_result,
          bind, Except.bind, pure, Except.pure, exec_claimed_shape]
